import Mathlib

/-!
Clip native helpers: `SendPaste.cpp` and `clipmsg.cpp`

A shallow embedding of the two native sources of the repository.

* `SendPaste.main` follows `src/native/SendPaste.cpp`: the window manager is
  a record of answers (`World`), and `main` returns the list of window-manager
  calls it makes, in order, together with the exit code.  The `printf`
  narration is not part of the model.
* `ClipMsg` follows `src/native/clipmsg.cpp`: the four file-level globals are
  a record that every exported function threads through, and the window
  manager keeps, for every live window, its current entry point.

Handles are natural numbers, `0` is `NULL`.  Wide and narrow C strings are
lists of characters (the characters before the terminating NUL).
-/

namespace SendPaste

/-! C runtime pieces used by `main` -/

abbrev HWND := Nat

/-- The `towlower` of the "C" locale: only `A`..`Z` are folded. -/
def towlower (c : Char) : Char :=
  if 65 ≤ c.toNat ∧ c.toNat ≤ 90 then Char.ofNat (c.toNat + 32) else c

/-- The CRT `_wcsicmp`: compares the two strings unit by unit after folding
each unit to lower case; the result is the difference at the first
mismatch, where the end of a string counts as the unit `0`. -/
def _wcsicmp : List Char → List Char → Int
  | [], [] => 0
  | [], d :: _ => 0 - ((towlower d).toNat : Int)
  | c :: _, [] => ((towlower c).toNat : Int) - 0
  | c :: cs, d :: ds =>
    if towlower c = towlower d then _wcsicmp cs ds
    else ((towlower c).toNat : Int) - ((towlower d).toNat : Int)

/-- Does `s` start with `needle`, unit for unit (no case folding)? -/
def startsWith : List Char → List Char → Bool
  | _, [] => true
  | [], _ :: _ => false
  | c :: cs, d :: ds => c == d && startsWith cs ds

/-- The CRT `wcsstr`: the first position at which `needle` occurs in `s`,
returned as the rest of `s` from there on (the C pointer); `none` is `NULL`.
The comparison is exact, unit for unit. -/
def wcsstr : List Char → List Char → Option (List Char)
  | [], needle => if startsWith [] needle then some [] else none
  | c :: cs, needle =>
    if startsWith (c :: cs) needle then some (c :: cs) else wcsstr cs needle

/-- The `isspace` of the "C" locale. -/
def isspace (c : Char) : Bool :=
  c.toNat = 32 || (9 ≤ c.toNat && c.toNat ≤ 13)

/-- The `isdigit` of the C runtime: `0`..`9`. -/
def isdigit (c : Char) : Bool :=
  48 ≤ c.toNat && c.toNat ≤ 57

/-- The value of a run of decimal digits, most significant first. -/
def digitsValue (ds : List Char) : Nat :=
  ds.foldl (fun acc c => 10 * acc + (c.toNat - 48)) 0

/-- The conversion `sscanf(s, "%llu", &x)` performs: leading white space is
skipped, one sign is accepted, then the longest run of decimal digits is
converted; whatever follows the digits is left unread.  `none` means no
conversion took place (no digit was found) and `x` is left as it was.  A
digit run whose value does not fit 64 bits is stored as `2^64 - 1` whatever
the sign; otherwise a leading `-` negates the value modulo `2^64`. -/
def sscanf_llu (s : List Char) : Option Nat :=
  let s1 := s.dropWhile isspace
  let neg := s1.head? == some '-'
  let s2 := if s1.head? == some '-' || s1.head? == some '+' then s1.tail else s1
  let ds := s2.takeWhile isdigit
  if ds.isEmpty then none
  else if digitsValue ds > 2 ^ 64 - 1 then some (2 ^ 64 - 1)
  else some (if neg then (2 ^ 64 - digitsValue ds) % 2 ^ 64 else digitsValue ds)

/-- The keyboard member of `INPUT`. -/
structure KEYBDINPUT where
  wVk : Nat
  wScan : Nat
  dwFlags : Nat
  time : Nat
  dwExtraInfo : Nat
deriving DecidableEq, Repr

/-- One `INPUT` record; only the keyboard member of the union is used. -/
structure INPUT where
  type : Nat
  ki : KEYBDINPUT
deriving DecidableEq, Repr

def INPUT_KEYBOARD : Nat := 1
def VK_CONTROL : Nat := 0x11
def KEYEVENTF_KEYUP : Nat := 0x0002
def WM_COMMAND : Nat := 0x0111
def WM_PASTE : Nat := 0x0302

/-- The part of `GUITHREADINFO` that `main` reads. -/
structure GUITHREADINFO where
  hwndFocus : HWND
deriving DecidableEq, Repr

/-- What the window manager answers during one run of the program. -/
structure World where
  /-- result of `GetForegroundWindow()` -/
  GetForegroundWindow : HWND
  /-- result of `GetGUIThreadInfo(idThread, &ti)`: `none` when the call
  returns `FALSE`, otherwise the record it fills in -/
  GetGUIThreadInfo : Nat → Option GUITHREADINFO
  /-- the class name of a window; empty for a handle that is not a window -/
  className : HWND → List Char
  /-- result of `FindWindowExW(parent, childAfter, class, NULL)` -/
  FindWindowExW : HWND → HWND → List Char → HWND
  /-- result of `SendInput`: how many of the events were accepted -/
  SendInput : List INPUT → Nat

/-- `GetClassNameW(h, buf, nMaxCount)`: at most `nMaxCount - 1` units of the
class name are copied into the (zeroed) buffer. -/
def GetClassNameW (w : World) (h : HWND) (nMaxCount : Nat) : List Char :=
  (w.className h).take (nMaxCount - 1)

/-- A window-manager call made by the program, with its arguments. -/
inductive Call where
  | GetForegroundWindow
  | GetGUIThreadInfo (idThread : Nat)
  | GetClassNameW (hWnd : HWND) (nMaxCount : Nat)
  | SendMessageW (hWnd : HWND) (Msg wParam lParam : Nat)
  | FindWindowExW (hWndParent hWndChildAfter : HWND) (lpszClass : List Char)
  | SetForegroundWindow (hWnd : HWND)
  | SendInput (cInputs : Nat) (pInputs : List INPUT)
deriving DecidableEq, Repr

/-- Calls that only ask the window manager something. -/
def Call.isQuery : Call → Bool
  | .GetForegroundWindow => true
  | .GetGUIThreadInfo _ => true
  | .GetClassNameW _ _ => true
  | .FindWindowExW _ _ _ => true
  | _ => false

/-- The calls of a trace that act on a window or on the input queue. -/
def actions (t : List Call) : List Call :=
  t.filter (fun c => !c.isQuery)

/-! `main` -/

/-- Lines 11-19: the handle taken from the command line (`NULL` when there is
no argument or nothing was converted). -/
def argHwnd (argv : List (List Char)) : HWND :=
  if argv.length > 1 then
    match sscanf_llu (argv.getD 1 []) with
    | some v => v
    | none => 0
  else 0

/-- Lines 11-24: the target window and the calls made to find it. -/
def targetWindow (argv : List (List Char)) (w : World) : HWND × List Call :=
  if argHwnd argv = 0 then (w.GetForegroundWindow, [Call.GetForegroundWindow])
  else (argHwnd argv, [])

/-- Lines 32-42: the focused window, or `hwnd` itself. -/
def focusWindow (w : World) (hwnd : HWND) : HWND :=
  match w.GetGUIThreadInfo 0 with
  | some ti => if ti.hwndFocus ≠ 0 then ti.hwndFocus else hwnd
  | none => hwnd

/-- Lines 85-93: the four keyboard events. -/
def chord : List INPUT :=
  let zero : INPUT := { type := 0, ki := { wVk := 0, wScan := 0, dwFlags := 0, time := 0, dwExtraInfo := 0 } }
  let in0 : INPUT := { zero with type := INPUT_KEYBOARD, ki := { zero.ki with wVk := VK_CONTROL } }
  let in1 : INPUT := { zero with type := INPUT_KEYBOARD, ki := { zero.ki with wVk := 'V'.toNat } }
  let in2 : INPUT := { in1 with ki := { in1.ki with dwFlags := KEYEVENTF_KEYUP } }
  let in3 : INPUT := { in0 with ki := { in0.ki with dwFlags := KEYEVENTF_KEYUP } }
  [in0, in1, in2, in3]

/-- Lines 81-96, the block at the label `Simulate`.  The count that
`SendInput` returns is only printed. -/
def Simulate (hwnd : HWND) : List Call :=
  [Call.SetForegroundWindow hwnd, Call.SendInput 4 chord]

/-- Lines 44-96: read the class name of the focus window and dispatch. -/
def dispatch (w : World) (hwnd hwndFocus : HWND) : List Call :=
  let cls := GetClassNameW w hwndFocus 63
  Call.GetClassNameW hwndFocus 63 ::
    (if _wcsicmp cls "ConsoleWindowClass".toList = 0 then
      [Call.SendMessageW hwndFocus WM_COMMAND 0xFFF1 0]
    else if _wcsicmp cls "Edit".toList = 0 ∨ (wcsstr cls "RichEdit".toList).isSome then
      [Call.SendMessageW hwndFocus WM_PASTE 0 0]
    else if _wcsicmp cls "ComboBox".toList = 0 then
      let hwndEdit := w.FindWindowExW hwndFocus 0 "Edit".toList
      Call.FindWindowExW hwndFocus 0 "Edit".toList ::
        (if hwndEdit ≠ 0 then [Call.SendMessageW hwndEdit WM_PASTE 0 0]
         else Simulate hwnd)
    else Simulate hwnd)

/-- The program: the calls it makes, in order, and its exit code. -/
def main (argv : List (List Char)) (w : World) : List Call × Int :=
  let hwnd := (targetWindow argv w).1
  if hwnd = 0 then ((targetWindow argv w).2, 1)
  else
    let hwndFocus := focusWindow w hwnd
    ((targetWindow argv w).2 ++ Call.GetGUIThreadInfo 0 :: dispatch w hwnd hwndFocus, 0)

/-- A desktop for trying `main`: window `100` is focused and has the given
class name, its child search answers `child`, and the input queue accepts
`accepted` events. -/
def sampleWorld (cls : List Char) (child accepted : Nat) : World where
  GetForegroundWindow := 7
  GetGUIThreadInfo := fun _ => some { hwndFocus := 100 }
  className := fun h => if h = 100 then cls else []
  FindWindowExW := fun _ _ _ => child
  SendInput := fun _ => accepted

end SendPaste

namespace ClipMsg

/-! `clipmsg.cpp` -/

abbrev HWND := Nat

/-- A window entry point: the interception shim of this module, or code at
some other address (`addr 0` is `NULL`). -/
inductive WNDPROC where
  | SubclassProc
  | addr (p : Nat)
deriving DecidableEq, Repr

/-- The JavaScript values the host passes in and gets back.  A `buffer` is a
buffer of at least one machine word, `word` being the first one. -/
inductive Value where
  | null
  | boolean (b : Bool)
  | number (n : Int)
  | buffer (word : Nat)
  | function (id : Nat)
deriving DecidableEq, Repr

/-- The Node-API failures that the wrapper classes turn into a JavaScript
exception. -/
inductive napi_status where
  | napi_invalid_arg
  | napi_number_expected
deriving DecidableEq, Repr

/-- How a call made from JavaScript ends: a value is returned, or a
JavaScript exception is thrown and the C++ function is left at that line. -/
inductive Completion where
  | returned (v : Value)
  | thrown (status : napi_status)
deriving DecidableEq, Repr

/-- `v.As<Napi::Buffer<void>>().Data()` read as one `HWND`: the first machine
word of the buffer; a value that is not a buffer makes `Data()` throw. -/
def Value.bufferHWND : Value → Except napi_status HWND
  | .buffer word => .ok word
  | _ => .error napi_status.napi_invalid_arg

/-- `v.As<Napi::Number>().Uint32Value()`: the number reduced modulo `2^32`;
a value that is not a number makes the call throw. -/
def Value.Uint32Value : Value → Except napi_status Nat
  | .number n => .ok (n % 2 ^ 32).toNat
  | _ => .error napi_status.napi_number_expected

/-- `Napi::ThreadSafeFunction::New(env, v.As<Napi::Function>(), ...)`: a
thread-safe function wrapping the callback; a value that is not a function
makes the call throw. -/
def ThreadSafeFunction_New : Value → Except napi_status Nat
  | .function id => .ok id
  | _ => .error napi_status.napi_invalid_arg

/-- The file-level statics, lines 4-7. -/
structure Globals where
  g_hwnd : HWND
  g_customMsg : Nat
  g_callback : Option Nat
  g_originalProc : WNDPROC
deriving DecidableEq, Repr

/-- The statics as the loader leaves them. -/
def Globals.init : Globals :=
  { g_hwnd := 0, g_customMsg := 0, g_callback := none, g_originalProc := .addr 0 }

/-- The window manager as this module sees it. -/
structure Desktop where
  /-- the entry point of every window whose entry point this process may
  replace; `none` for any other handle -/
  wndproc : HWND → Option WNDPROC
  /-- the result of running the handler at an address on a message -/
  appProc : Nat → HWND → Nat → Nat → Nat → Int
  /-- result of `GetForegroundWindow()` -/
  GetForegroundWindow : HWND
  /-- the `BOOL` that `SetForegroundWindow(h)` returns -/
  SetForegroundWindow : HWND → Int

/-- `SetWindowLongPtrW(h, GWLP_WNDPROC, new)`: stores the new entry point and
returns the previous one; fails with `0` and changes nothing when `h` is not
a window whose entry point can be replaced. -/
def SetWindowLongPtrW (d : Desktop) (h : HWND) (new : WNDPROC) : WNDPROC × Desktop :=
  match d.wndproc h with
  | none => (.addr 0, d)
  | some old => (old, { d with wndproc := fun x => if x = h then some new else d.wndproc x })

/-- What a message delivered to the shim causes. -/
inductive Event where
  | BlockingCall (callback : Nat)
  | CallWindowProc (lpPrevWndFunc : WNDPROC) (hwnd : HWND) (msg wParam lParam : Nat)
deriving DecidableEq, Repr

/-- `CallWindowProc(p, hwnd, msg, wParam, lParam)`: runs the entry point `p`;
`shim` is what running `SubclassProc` itself amounts to. -/
def CallWindowProc (shim : HWND → Nat → Nat → Nat → Option (Int × List Event))
    (d : Desktop) (p : WNDPROC) (hwnd : HWND) (msg wParam lParam : Nat) :
    Option (Int × List Event) :=
  match p with
  | .SubclassProc =>
    (shim hwnd msg wParam lParam).map
      (fun r => (r.1, Event.CallWindowProc p hwnd msg wParam lParam :: r.2))
  | .addr a =>
    some (d.appProc a hwnd msg wParam lParam, [Event.CallWindowProc p hwnd msg wParam lParam])

/-- Lines 9-18.  The first argument bounds the depth of nested calls of the
shim; `none` means the bound was reached before the shim returned. -/
def SubclassProc (d : Desktop) (g : Globals) :
    Nat → HWND → Nat → Nat → Nat → Option (Int × List Event)
  | 0, _, _, _, _ => none
  | fuel + 1, hwnd, msg, wParam, lParam =>
    if msg = g.g_customMsg ∧ g.g_callback.isSome then
      some (0, (g.g_callback.map Event.BlockingCall).toList)
    else
      CallWindowProc (SubclassProc d g fuel) d g.g_originalProc hwnd msg wParam lParam

/-- Lines 20-31.  Returns how the call ends, the statics and the window
manager after the call.  A conversion of an argument that throws ends the
call at that line: the statics assigned on earlier lines keep their new
values, the later ones are not reached. -/
def HookWindow (info : List Value) (g : Globals) (d : Desktop) :
    Completion × Globals × Desktop :=
  if info.length < 3 then (Completion.returned Value.null, g, d)
  else
    match (info.getD 0 Value.null).bufferHWND with
    | .error e => (Completion.thrown e, g, d)
    | .ok hwnd =>
      match (info.getD 1 Value.null).Uint32Value with
      | .error e => (Completion.thrown e, { g with g_hwnd := hwnd }, d)
      | .ok msg =>
        match ThreadSafeFunction_New (info.getD 2 Value.null) with
        | .error e => (Completion.thrown e, { g with g_hwnd := hwnd, g_customMsg := msg }, d)
        | .ok cb =>
          let r := SetWindowLongPtrW d hwnd WNDPROC.SubclassProc
          (Completion.returned (Value.boolean true),
            { g_hwnd := hwnd, g_customMsg := msg, g_callback := some cb,
              g_originalProc := r.1 },
            r.2)

/-- Lines 33-38. -/
def GetForegroundWindowWrapped (_info : List Value) (d : Desktop) : Value :=
  Value.number d.GetForegroundWindow

/-- The Win32 constant `TRUE`. -/
def TRUE : Int := 1

/-- Lines 40-54.  Returns how the call ends and the handles on which
`SetForegroundWindow` was called. -/
def SetForegroundWindowWrapped (info : List Value) (d : Desktop) : Completion × List HWND :=
  if info.length < 1 then (Completion.returned (Value.boolean false), [])
  else
    match (info.getD 0 Value.null).Uint32Value with
    | .error e => (Completion.thrown e, [])
    | .ok hwndValue =>
      let result := d.SetForegroundWindow hwndValue
      (Completion.returned (Value.boolean (result == TRUE)), [hwndValue])

/-- A desktop for trying the module: window `9` is live and handled by the
code at address `5000`, which answers every message with `42`;
`SetForegroundWindow` answers `r`. -/
def sampleDesktop (r : Int) : Desktop where
  wndproc := fun h => if h = 9 then some (WNDPROC.addr 5000) else none
  appProc := fun _ _ _ _ _ => 42
  GetForegroundWindow := 9
  SetForegroundWindow := fun _ => r

/-- Window `9` of the sample desktop hooked twice: first with signal 1024 and
callback 1, then with signal 2048 and callback 2. -/
def rehookedSample : Completion × Globals × Desktop :=
  HookWindow [Value.buffer 9, Value.number 2048, Value.function 2]
    (HookWindow [Value.buffer 9, Value.number 1024, Value.function 1] Globals.init
      (sampleDesktop 1)).2.1
    (HookWindow [Value.buffer 9, Value.number 1024, Value.function 1] Globals.init
      (sampleDesktop 1)).2.2

end ClipMsg

namespace SendPaste

/-! Facts about the string routines -/

theorem toNat_ofNat_upper (n : Nat) (h1 : 65 ≤ n) (h2 : n ≤ 90) :
    (Char.ofNat (n + 32)).toNat = n + 32 := by
  interval_cases n <;> rfl

theorem towlower_idem (c : Char) : towlower (towlower c) = towlower c := by
  unfold towlower
  by_cases h : 65 ≤ c.toNat ∧ c.toNat ≤ 90
  · have e := toNat_ofNat_upper c.toNat h.1 h.2
    simp only [h, and_self, if_true, e]
    rw [if_neg]
    omega
  · simp only [h, if_false]

theorem wcsicmp_fold (a b : List Char) :
    _wcsicmp a b = _wcsicmp (a.map towlower) (b.map towlower) := by
  induction a generalizing b with
  | nil => cases b <;> simp [_wcsicmp, towlower_idem]
  | cons c cs ih =>
    cases b with
    | nil => simp [_wcsicmp, towlower_idem]
    | cons d ds =>
      simp only [_wcsicmp, List.map_cons, towlower_idem]
      rw [ih ds]

theorem startsWith_map (f : Char → Char) (a n : List Char) (h : startsWith a n = true) :
    startsWith (a.map f) (n.map f) = true := by
  induction a generalizing n with
  | nil => cases n <;> simp_all [startsWith]
  | cons c cs ih =>
    cases n with
    | nil => simp [startsWith]
    | cons d ds =>
      simp only [startsWith, Bool.and_eq_true, beq_iff_eq, List.map_cons] at h ⊢
      exact ⟨by rw [h.1], ih ds h.2⟩

theorem wcsstr_map (f : Char → Char) (a n : List Char) (h : (wcsstr a n).isSome = true) :
    (wcsstr (a.map f) (n.map f)).isSome = true := by
  induction a with
  | nil =>
    cases n <;> simp_all [wcsstr, startsWith]
  | cons c cs ih =>
    simp only [wcsstr, List.map_cons] at h ⊢
    by_cases hs : startsWith (c :: cs) n = true
    · have := startsWith_map f (c :: cs) n hs
      simp only [List.map_cons] at this
      simp [this]
    · simp only [hs] at h
      split
      · simp
      · exact ih (by simpa using h)

theorem take_of_map_eq (f : Char → Char) (a b : List Char) (k : Nat)
    (h : a.map f = b.map f) (hk : b.length ≤ k) : a.take k = a := by
  apply List.take_of_length_le
  have := congrArg List.length h
  simp only [List.length_map] at this
  omega

end SendPaste

namespace SendPaste

theorem towlower_toNat_ne_zero (c : Char) (h : c.toNat ≠ 0) : (towlower c).toNat ≠ 0 := by
  unfold towlower
  by_cases hc : 65 ≤ c.toNat ∧ c.toNat ≤ 90
  · rw [if_pos hc, toNat_ofNat_upper _ hc.1 hc.2]; omega
  · rw [if_neg hc]; exact h

/-- On strings without a NUL unit, `_wcsicmp` returns 0 only for strings that
are equal after case folding. -/
theorem map_eq_of_wcsicmp (a b : List Char) (ha : ∀ c ∈ a, c.toNat ≠ 0)
    (hb : ∀ c ∈ b, c.toNat ≠ 0) (h : _wcsicmp a b = 0) :
    a.map towlower = b.map towlower := by
  induction a generalizing b with
  | nil =>
    cases b with
    | nil => rfl
    | cons d ds =>
      simp only [_wcsicmp] at h
      have := towlower_toNat_ne_zero d (hb d (by simp))
      omega
  | cons c cs ih =>
    cases b with
    | nil =>
      simp only [_wcsicmp] at h
      have := towlower_toNat_ne_zero c (ha c (by simp))
      omega
    | cons d ds =>
      simp only [_wcsicmp] at h
      by_cases e : towlower c = towlower d
      · rw [if_pos e] at h
        simp only [List.map_cons, e]
        rw [ih ds (fun x hx => ha x (by simp [hx])) (fun x hx => hb x (by simp [hx])) h]
      · rw [if_neg e] at h
        exfalso
        apply e
        have hn : (towlower c).toNat = (towlower d).toNat := by omega
        rw [← Char.ofNat_toNat (towlower c), hn, Char.ofNat_toNat]

theorem startsWith_take (a n : List Char) (k : Nat) (h : startsWith (a.take k) n = true) :
    startsWith a n = true := by
  induction a generalizing n k with
  | nil => simpa using h
  | cons c cs ih =>
    cases n with
    | nil => simp [startsWith]
    | cons d ds =>
      cases k with
      | zero => simp [startsWith] at h
      | succ k =>
        simp only [List.take_succ_cons, startsWith, Bool.and_eq_true] at h ⊢
        exact ⟨h.1, ih ds k h.2⟩

theorem wcsstr_take (a n : List Char) (k : Nat) (h : (wcsstr (a.take k) n).isSome = true) :
    (wcsstr a n).isSome = true := by
  induction a generalizing k with
  | nil => simpa using h
  | cons c cs ih =>
    by_cases hs : startsWith (c :: cs) n = true
    · simp [wcsstr, hs]
    · cases k with
      | zero =>
        exfalso
        apply hs
        cases n with
        | nil => simp [startsWith]
        | cons d ds => simp [wcsstr, startsWith] at h
      | succ k =>
        have hs2 : ¬ startsWith (c :: cs.take k) n = true := by
          intro hh
          exact hs (startsWith_take (c :: cs) n (k + 1) (by simpa using hh))
        simp only [List.take_succ_cons, wcsstr, hs2, hs, if_false] at h ⊢
        exact ih k h

/-- A class name without a NUL unit that differs, also after case folding,
from `ConsoleWindowClass`, `Edit` and `ComboBox`, and in which `RichEdit`
does not occur, passes none of the four tests `main` applies to the
(possibly truncated) name it read. -/
theorem tests_fail_of_names_differ (w : World) (f : HWND)
    (hN : ∀ c ∈ w.className f, c.toNat ≠ 0)
    (h1 : (w.className f).map towlower ≠ "ConsoleWindowClass".toList.map towlower)
    (h2 : (w.className f).map towlower ≠ "Edit".toList.map towlower)
    (h3 : wcsstr (w.className f) "RichEdit".toList = none)
    (h4 : (w.className f).map towlower ≠ "ComboBox".toList.map towlower) :
    _wcsicmp (GetClassNameW w f 63) "ConsoleWindowClass".toList ≠ 0
    ∧ _wcsicmp (GetClassNameW w f 63) "Edit".toList ≠ 0
    ∧ wcsstr (GetClassNameW w f 63) "RichEdit".toList = none
    ∧ _wcsicmp (GetClassNameW w f 63) "ComboBox".toList ≠ 0 := by
  have key : ∀ lit : List Char, (∀ c ∈ lit, c.toNat ≠ 0) → lit.length ≤ 61 →
      (w.className f).map towlower ≠ lit.map towlower →
      _wcsicmp (GetClassNameW w f 63) lit ≠ 0 := by
    intro lit hl hlen hne h0
    have hN2 : ∀ c ∈ GetClassNameW w f 63, c.toNat ≠ 0 :=
      fun c hc => hN c (List.mem_of_mem_take hc)
    have hm := map_eq_of_wcsicmp _ lit hN2 hl h0
    have hlen2 := congrArg List.length hm
    simp only [List.length_map, GetClassNameW, List.length_take] at hlen2
    have hfull : GetClassNameW w f 63 = w.className f := by
      unfold GetClassNameW
      apply List.take_of_length_le
      omega
    rw [hfull] at hm
    exact hne hm
  refine ⟨key _ (by decide) (by decide) h1, key _ (by decide) (by decide) h2, ?_,
    key _ (by decide) (by decide) h4⟩
  cases hs : wcsstr (GetClassNameW w f 63) "RichEdit".toList with
  | none => rfl
  | some r =>
    have := wcsstr_take (w.className f) "RichEdit".toList 62 (by
      have : GetClassNameW w f 63 = (w.className f).take 62 := rfl
      rw [← this, hs]; rfl)
    rw [h3] at this
    exact absurd this (by simp)

end SendPaste

namespace SendPaste

/-! Facts about `main` -/

theorem actions_targetWindow (argv : List (List Char)) (w : World) :
    actions (targetWindow argv w).2 = [] := by
  unfold targetWindow
  split <;> simp [actions, Call.isQuery]

theorem main_of_target (argv : List (List Char)) (w : World)
    (hT : (targetWindow argv w).1 ≠ 0) :
    main argv w =
      ((targetWindow argv w).2 ++ Call.GetGUIThreadInfo 0 ::
        dispatch w (targetWindow argv w).1 (focusWindow w (targetWindow argv w).1), 0) := by
  simp [main, hT]

/-- The five shapes the dispatch can take. -/
theorem dispatch_shapes (w : World) (hwnd f : HWND) :
    dispatch w hwnd f = [Call.GetClassNameW f 63, Call.SendMessageW f WM_COMMAND 0xFFF1 0]
    ∨ dispatch w hwnd f = [Call.GetClassNameW f 63, Call.SendMessageW f WM_PASTE 0 0]
    ∨ dispatch w hwnd f = [Call.GetClassNameW f 63, Call.FindWindowExW f 0 "Edit".toList,
        Call.SendMessageW (w.FindWindowExW f 0 "Edit".toList) WM_PASTE 0 0]
    ∨ dispatch w hwnd f = [Call.GetClassNameW f 63, Call.FindWindowExW f 0 "Edit".toList,
        Call.SetForegroundWindow hwnd, Call.SendInput 4 chord]
    ∨ dispatch w hwnd f = [Call.GetClassNameW f 63,
        Call.SetForegroundWindow hwnd, Call.SendInput 4 chord] := by
  unfold dispatch Simulate
  dsimp only
  split
  · exact Or.inl rfl
  · split
    · exact Or.inr (Or.inl rfl)
    · split
      · split
        · exact Or.inr (Or.inr (Or.inl rfl))
        · exact Or.inr (Or.inr (Or.inr (Or.inl rfl)))
      · exact Or.inr (Or.inr (Or.inr (Or.inr rfl)))

/-- A class name that is `ComboBox` up to case passes neither the console
test nor the edit test of the dispatch, and passes the combo-box test. -/
theorem combo_tests (w : World) (f : HWND)
    (hC : (w.className f).map towlower = "ComboBox".toList.map towlower) :
    _wcsicmp (GetClassNameW w f 63) "ConsoleWindowClass".toList ≠ 0
    ∧ _wcsicmp (GetClassNameW w f 63) "Edit".toList ≠ 0
    ∧ (wcsstr (GetClassNameW w f 63) "RichEdit".toList).isSome = false
    ∧ _wcsicmp (GetClassNameW w f 63) "ComboBox".toList = 0 := by
  have hcls : GetClassNameW w f 63 = w.className f :=
    take_of_map_eq towlower _ _ 62 hC (by decide)
  rw [hcls]
  refine ⟨?_, ?_, ?_, ?_⟩
  · rw [wcsicmp_fold, hC]; decide
  · rw [wcsicmp_fold, hC]; decide
  · cases hs : (wcsstr (w.className f) "RichEdit".toList).isSome with
    | false => rfl
    | true =>
      have := wcsstr_map towlower _ _ hs
      rw [hC] at this
      exact absurd this (by decide)
  · rw [wcsicmp_fold, hC]; decide

end SendPaste

namespace SendPaste

/-! The claims about `SendPaste.cpp` -/

/-- C1: a focus target whose class name spells the rich-edit name in another
letter case than `RichEdit` (here `RICHEDIT50W` and `richedit20w`) is not sent
`WM_PASTE`: `main` brings the target window to the foreground and injects
the key chord.  The same desktop with the class name `RichEdit20W` or `EDIT`
does get exactly one `WM_PASTE`. -/
theorem main_richedit_other_case_simulates :
    main [] (sampleWorld "RICHEDIT50W".toList 0 4)
      = ([Call.GetForegroundWindow, Call.GetGUIThreadInfo 0, Call.GetClassNameW 100 63,
          Call.SetForegroundWindow 7, Call.SendInput 4 chord], 0)
    ∧ main [] (sampleWorld "richedit20w".toList 0 4)
      = ([Call.GetForegroundWindow, Call.GetGUIThreadInfo 0, Call.GetClassNameW 100 63,
          Call.SetForegroundWindow 7, Call.SendInput 4 chord], 0)
    ∧ main [] (sampleWorld "RichEdit20W".toList 0 4)
      = ([Call.GetForegroundWindow, Call.GetGUIThreadInfo 0, Call.GetClassNameW 100 63,
          Call.SendMessageW 100 WM_PASTE 0 0], 0)
    ∧ main [] (sampleWorld "EDIT".toList 0 4)
      = ([Call.GetForegroundWindow, Call.GetGUIThreadInfo 0, Call.GetClassNameW 100 63,
          Call.SendMessageW 100 WM_PASTE 0 0], 0) := by
  decide

/-- C2: when a target window is resolved and the class name of the focus
target equals `ConsoleWindowClass` ignoring case, `main` makes, after its
queries, exactly one acting call: `SendMessageW(focus, WM_COMMAND, 0xFFF1, 0)`;
it sends no `WM_PASTE`, calls neither `SetForegroundWindow` nor `SendInput`,
and exits with code 0. -/
theorem main_console_sends_command (argv : List (List Char)) (w : World)
    (hT : (targetWindow argv w).1 ≠ 0)
    (hC : (w.className (focusWindow w (targetWindow argv w).1)).map towlower
        = "ConsoleWindowClass".toList.map towlower) :
    main argv w =
      ((targetWindow argv w).2 ++
        [Call.GetGUIThreadInfo 0,
         Call.GetClassNameW (focusWindow w (targetWindow argv w).1) 63,
         Call.SendMessageW (focusWindow w (targetWindow argv w).1) WM_COMMAND 0xFFF1 0], 0)
    ∧ actions (main argv w).1
        = [Call.SendMessageW (focusWindow w (targetWindow argv w).1) WM_COMMAND 0xFFF1 0]
    ∧ (main argv w).2 = 0 := by
  have hcls : GetClassNameW w (focusWindow w (targetWindow argv w).1) 63
      = w.className (focusWindow w (targetWindow argv w).1) :=
    take_of_map_eq towlower _ _ 62 hC (by decide)
  have h0 : _wcsicmp (GetClassNameW w (focusWindow w (targetWindow argv w).1) 63)
      "ConsoleWindowClass".toList = 0 := by
    rw [hcls, wcsicmp_fold, hC]; decide
  have hm : main argv w =
      ((targetWindow argv w).2 ++
        [Call.GetGUIThreadInfo 0,
         Call.GetClassNameW (focusWindow w (targetWindow argv w).1) 63,
         Call.SendMessageW (focusWindow w (targetWindow argv w).1) WM_COMMAND 0xFFF1 0], 0) := by
    rw [main_of_target argv w hT]
    simp only [dispatch, h0, if_true]
  refine ⟨hm, ?_, ?_⟩
  · rw [hm]
    have := actions_targetWindow argv w
    simp only [actions, List.filter_append] at this ⊢
    rw [this]
    simp [Call.isQuery]
  · rw [hm]

/-- The witness of C2: no argument, foreground window 7, focus window 100 of
class `consoleWINDOWclass`. -/
theorem main_console_sends_command_witness :
    main [] (sampleWorld "consoleWINDOWclass".toList 0 4)
      = ([Call.GetForegroundWindow, Call.GetGUIThreadInfo 0, Call.GetClassNameW 100 63,
          Call.SendMessageW 100 0x0111 0xFFF1 0], 0) :=
  (main_console_sends_command [] (sampleWorld "consoleWINDOWclass".toList 0 4)
    (by decide) (by decide)).1

/-- C3: when a target window is resolved, the class name of the focus target
equals `ComboBox` ignoring case and the search for a child of class `Edit`
returns a non-null handle, `main` makes, after its queries, exactly one acting
call: `SendMessageW(child, WM_PASTE, 0, 0)`.  No keystroke is simulated, and
no message goes to the combo box (the child being another window). -/
theorem main_combo_pastes_into_child (argv : List (List Char)) (w : World)
    (hT : (targetWindow argv w).1 ≠ 0)
    (hC : (w.className (focusWindow w (targetWindow argv w).1)).map towlower
        = "ComboBox".toList.map towlower)
    (hE : w.FindWindowExW (focusWindow w (targetWindow argv w).1) 0 "Edit".toList ≠ 0) :
    main argv w =
      ((targetWindow argv w).2 ++
        [Call.GetGUIThreadInfo 0,
         Call.GetClassNameW (focusWindow w (targetWindow argv w).1) 63,
         Call.FindWindowExW (focusWindow w (targetWindow argv w).1) 0 "Edit".toList,
         Call.SendMessageW
           (w.FindWindowExW (focusWindow w (targetWindow argv w).1) 0 "Edit".toList)
           WM_PASTE 0 0], 0)
    ∧ actions (main argv w).1
        = [Call.SendMessageW
            (w.FindWindowExW (focusWindow w (targetWindow argv w).1) 0 "Edit".toList)
            WM_PASTE 0 0]
    ∧ (w.FindWindowExW (focusWindow w (targetWindow argv w).1) 0 "Edit".toList
          ≠ focusWindow w (targetWindow argv w).1 →
        ∀ m wp lp,
          Call.SendMessageW (focusWindow w (targetWindow argv w).1) m wp lp ∉ (main argv w).1) := by
  obtain ⟨h1, h2, h3, h4⟩ := combo_tests w _ hC
  have hm : main argv w =
      ((targetWindow argv w).2 ++
        [Call.GetGUIThreadInfo 0,
         Call.GetClassNameW (focusWindow w (targetWindow argv w).1) 63,
         Call.FindWindowExW (focusWindow w (targetWindow argv w).1) 0 "Edit".toList,
         Call.SendMessageW
           (w.FindWindowExW (focusWindow w (targetWindow argv w).1) 0 "Edit".toList)
           WM_PASTE 0 0], 0) := by
    rw [main_of_target argv w hT]
    simp only [dispatch, h1, h2, h3, h4, hE, if_true, if_false, ne_eq, not_false_eq_true,
      or_self, Bool.false_eq_true]
  refine ⟨hm, ?_, ?_⟩
  · rw [hm]
    have := actions_targetWindow argv w
    simp only [actions, List.filter_append] at this ⊢
    rw [this]
    simp [Call.isQuery]
  · intro hne m wp lp hmem
    rw [hm] at hmem
    simp only [List.mem_append, List.mem_cons, List.mem_singleton] at hmem
    rcases hmem with hmem | hmem
    · unfold targetWindow at hmem
      split at hmem <;> simp at hmem
    · simp at hmem
      exact hne hmem.1.symm

/-- The witness of C3: argument `55`, focus window 100 of class `COMBOBOX`
whose `Edit` child is window 101. -/
theorem main_combo_pastes_into_child_witness :
    main ["SendPaste".toList, "55".toList] (sampleWorld "COMBOBOX".toList 101 4)
      = ([Call.GetGUIThreadInfo 0, Call.GetClassNameW 100 63,
          Call.FindWindowExW 100 0 "Edit".toList,
          Call.SendMessageW 101 0x0302 0 0], 0) :=
  (main_combo_pastes_into_child ["SendPaste".toList, "55".toList]
    (sampleWorld "COMBOBOX".toList 101 4) (by decide) (by decide) (by decide)).1

end SendPaste

namespace SendPaste

/-- C4: when a target window is resolved and the focus target either has a
class name equal to `ComboBox` ignoring case and no child of class `Edit`, or
has a class name that passes none of the four tests of the dispatch (console,
edit, rich edit, combo box), `main` makes only queries and then exactly two
acting calls: `SetForegroundWindow` on the target window (not on the focus
target) and `SendInput` with the 4 keyboard events Control down, `V` down,
`V` up, Control up.  No message is sent.  Both cases give the same acting
calls. -/
theorem main_fallback_simulates (argv : List (List Char)) (w : World)
    (hT : (targetWindow argv w).1 ≠ 0)
    (h : ((w.className (focusWindow w (targetWindow argv w).1)).map towlower
            = "ComboBox".toList.map towlower
          ∧ w.FindWindowExW (focusWindow w (targetWindow argv w).1) 0 "Edit".toList = 0)
        ∨ (_wcsicmp (GetClassNameW w (focusWindow w (targetWindow argv w).1) 63)
              "ConsoleWindowClass".toList ≠ 0
          ∧ _wcsicmp (GetClassNameW w (focusWindow w (targetWindow argv w).1) 63)
              "Edit".toList ≠ 0
          ∧ wcsstr (GetClassNameW w (focusWindow w (targetWindow argv w).1) 63)
              "RichEdit".toList = none
          ∧ _wcsicmp (GetClassNameW w (focusWindow w (targetWindow argv w).1) 63)
              "ComboBox".toList ≠ 0)) :
    (∃ q : List Call, (∀ c ∈ q, c.isQuery = true) ∧
      main argv w =
        (q ++ [Call.SetForegroundWindow (targetWindow argv w).1,
               Call.SendInput 4
                 [{ type := 1, ki := { wVk := 0x11, wScan := 0, dwFlags := 0, time := 0, dwExtraInfo := 0 } },
                  { type := 1, ki := { wVk := 0x56, wScan := 0, dwFlags := 0, time := 0, dwExtraInfo := 0 } },
                  { type := 1, ki := { wVk := 0x56, wScan := 0, dwFlags := 2, time := 0, dwExtraInfo := 0 } },
                  { type := 1, ki := { wVk := 0x11, wScan := 0, dwFlags := 2, time := 0, dwExtraInfo := 0 } }]],
         0))
    ∧ actions (main argv w).1
        = [Call.SetForegroundWindow (targetWindow argv w).1, Call.SendInput 4 chord] := by
  have hq : ∀ c ∈ (targetWindow argv w).2, c.isQuery = true := by
    intro c hc
    unfold targetWindow at hc
    split at hc <;> simp at hc
    subst hc; rfl
  have hch : chord =
      [{ type := 1, ki := { wVk := 0x11, wScan := 0, dwFlags := 0, time := 0, dwExtraInfo := 0 } },
       { type := 1, ki := { wVk := 0x56, wScan := 0, dwFlags := 0, time := 0, dwExtraInfo := 0 } },
       { type := 1, ki := { wVk := 0x56, wScan := 0, dwFlags := 2, time := 0, dwExtraInfo := 0 } },
       { type := 1, ki := { wVk := 0x11, wScan := 0, dwFlags := 2, time := 0, dwExtraInfo := 0 } }] := by
    decide
  have key : ∃ q : List Call, (∀ c ∈ q, c.isQuery = true) ∧
      main argv w =
        (q ++ [Call.SetForegroundWindow (targetWindow argv w).1, Call.SendInput 4 chord], 0) := by
    rcases h with ⟨hC, hE⟩ | ⟨h1, h2, h3, h4⟩
    · obtain ⟨h1, h2, h3, h4⟩ := combo_tests w _ hC
      refine ⟨(targetWindow argv w).2 ++
        [Call.GetGUIThreadInfo 0,
         Call.GetClassNameW (focusWindow w (targetWindow argv w).1) 63,
         Call.FindWindowExW (focusWindow w (targetWindow argv w).1) 0 "Edit".toList], ?_, ?_⟩
      · intro c hc
        rcases List.mem_append.1 hc with hc | hc
        · exact hq c hc
        · simp only [List.mem_cons, List.mem_singleton, List.not_mem_nil, or_false] at hc
          rcases hc with rfl | rfl | rfl <;> rfl
      · rw [main_of_target argv w hT]
        simp only [dispatch, Simulate, h1, h2, h3, h4, hE, if_true, if_false, ne_eq,
          not_true_eq_false, or_self, Bool.false_eq_true, List.append_assoc, List.cons_append,
          List.nil_append]
    · refine ⟨(targetWindow argv w).2 ++
        [Call.GetGUIThreadInfo 0,
         Call.GetClassNameW (focusWindow w (targetWindow argv w).1) 63], ?_, ?_⟩
      · intro c hc
        rcases List.mem_append.1 hc with hc | hc
        · exact hq c hc
        · simp only [List.mem_cons, List.mem_singleton, List.not_mem_nil, or_false] at hc
          rcases hc with rfl | rfl <;> rfl
      · rw [main_of_target argv w hT]
        simp only [dispatch, Simulate, h1, h2, h3, h4, if_false, Option.isSome_none,
          or_self, Bool.false_eq_true, List.append_assoc, List.cons_append, List.nil_append]
  obtain ⟨q, hq1, hq2⟩ := key
  refine ⟨⟨q, hq1, by rw [hq2, hch]⟩, ?_⟩
  rw [hq2]
  have hf : List.filter (fun c => !c.isQuery) q = [] := by
    rw [List.filter_eq_nil_iff]
    intro c hc
    simp [hq1 c hc]
  simp only [actions, List.filter_append, hf, List.nil_append]
  simp [Call.isQuery]

/-- The witness of C4: a combo box without an `Edit` child and a window of
class `Chrome_WidgetWin_1` (for which the input queue accepts only 2 events)
both end in the same two acting calls. -/
theorem main_fallback_simulates_witness :
    actions (main [] (sampleWorld "combobox".toList 0 4)).1
      = [Call.SetForegroundWindow 7, Call.SendInput 4 chord]
    ∧ actions (main [] (sampleWorld "Chrome_WidgetWin_1".toList 0 2)).1
      = [Call.SetForegroundWindow 7, Call.SendInput 4 chord] :=
  ⟨(main_fallback_simulates [] (sampleWorld "combobox".toList 0 4) (by decide)
      (Or.inl (by decide))).2,
   (main_fallback_simulates [] (sampleWorld "Chrome_WidgetWin_1".toList 0 2) (by decide)
      (Or.inr (by decide))).2⟩

/-- C8: when a target window is resolved, the focus target is the target
window itself if `GetGUIThreadInfo` fails or reports a null focus window,
and the reported focus window otherwise.  `main` asks for it once, reads the
class name of that window only, sends messages only to it (or to the `Edit`
child found under it), and still passes the unchanged target window to
`SetForegroundWindow`. -/
theorem main_focus_target (argv : List (List Char)) (w : World)
    (hT : (targetWindow argv w).1 ≠ 0) :
    (w.GetGUIThreadInfo 0 = none →
        focusWindow w (targetWindow argv w).1 = (targetWindow argv w).1)
    ∧ (∀ ti, w.GetGUIThreadInfo 0 = some ti → ti.hwndFocus = 0 →
        focusWindow w (targetWindow argv w).1 = (targetWindow argv w).1)
    ∧ (∀ ti, w.GetGUIThreadInfo 0 = some ti → ti.hwndFocus ≠ 0 →
        focusWindow w (targetWindow argv w).1 = ti.hwndFocus)
    ∧ main argv w =
        ((targetWindow argv w).2 ++ Call.GetGUIThreadInfo 0 ::
          dispatch w (targetWindow argv w).1 (focusWindow w (targetWindow argv w).1), 0)
    ∧ ((main argv w).1.filter
          (fun c => match c with | Call.GetGUIThreadInfo _ => true | _ => false)).length = 1
    ∧ (∀ h n, Call.GetClassNameW h n ∈ (main argv w).1 →
        h = focusWindow w (targetWindow argv w).1)
    ∧ (∀ h m wp lp, Call.SendMessageW h m wp lp ∈ (main argv w).1 →
        h = focusWindow w (targetWindow argv w).1
        ∨ h = w.FindWindowExW (focusWindow w (targetWindow argv w).1) 0 "Edit".toList)
    ∧ (∀ h, Call.SetForegroundWindow h ∈ (main argv w).1 → h = (targetWindow argv w).1) := by
  have hm := main_of_target argv w hT
  have ht : (targetWindow argv w).2 = [] ∨ (targetWindow argv w).2 = [Call.GetForegroundWindow] := by
    unfold targetWindow
    split <;> simp
  refine ⟨?_, ?_, ?_, hm, ?_, ?_, ?_, ?_⟩
  · intro h
    simp [focusWindow, h]
  · intro ti h h0
    simp [focusWindow, h, h0]
  · intro ti h h0
    simp [focusWindow, h, h0]
  · rw [hm]
    rcases ht with ht | ht <;>
      rcases dispatch_shapes w (targetWindow argv w).1
        (focusWindow w (targetWindow argv w).1) with h | h | h | h | h <;>
      rw [ht, h] <;> rfl
  · intro h n hmem
    rw [hm] at hmem
    rcases ht with ht | ht <;>
      rcases dispatch_shapes w (targetWindow argv w).1
        (focusWindow w (targetWindow argv w).1) with hd | hd | hd | hd | hd <;>
      rw [ht, hd] at hmem <;> simp at hmem <;> exact hmem.1
  · intro h m wp lp hmem
    rw [hm] at hmem
    rcases ht with ht | ht <;>
      rcases dispatch_shapes w (targetWindow argv w).1
        (focusWindow w (targetWindow argv w).1) with hd | hd | hd | hd | hd <;>
      rw [ht, hd] at hmem <;> simp at hmem <;> simp [hmem]
  · intro h hmem
    rw [hm] at hmem
    rcases ht with ht | ht <;>
      rcases dispatch_shapes w (targetWindow argv w).1
        (focusWindow w (targetWindow argv w).1) with hd | hd | hd | hd | hd <;>
      rw [ht, hd] at hmem <;> simp at hmem <;> exact hmem

end SendPaste

namespace SendPaste

/-- The witness of C8: with the argument `55` and a failing focus query the
class name is read from window 55 itself; with a focus query reporting
window 100 it is read from window 100. -/
theorem main_focus_target_witness :
    focusWindow { sampleWorld [] 0 4 with GetGUIThreadInfo := fun _ => none } 55 = 55
    ∧ main ["SendPaste".toList, "55".toList] (sampleWorld "Edit".toList 0 4)
      = ([Call.GetGUIThreadInfo 0, Call.GetClassNameW 100 63,
          Call.SendMessageW 100 WM_PASTE 0 0], 0) :=
  ⟨(main_focus_target ["SendPaste".toList, "55".toList]
      { sampleWorld [] 0 4 with GetGUIThreadInfo := fun _ => none } (by decide)).1 rfl,
   by decide⟩

/-- How the `%llu` conversion treats some arguments. -/
theorem sscanf_llu_examples :
    sscanf_llu "132456".toList = some 132456
    ∧ sscanf_llu "  +7".toList = some 7
    ∧ sscanf_llu "12ab".toList = some 12
    ∧ sscanf_llu "0".toList = some 0
    ∧ sscanf_llu "abc".toList = none
    ∧ sscanf_llu "+ 5".toList = none
    ∧ sscanf_llu "-99999999999999999999999".toList = some (2 ^ 64 - 1)
    ∧ sscanf_llu [] = none := by
  decide

end SendPaste

namespace ClipMsg

/-! The claims about `clipmsg.cpp` -/

theorem SubclassProc_reenters (d : Desktop) (g : Globals) (hwnd : HWND) (msg wParam lParam : Nat)
    (ho : g.g_originalProc = WNDPROC.SubclassProc) (hm : msg ≠ g.g_customMsg) :
    ∀ fuel, SubclassProc d g fuel hwnd msg wParam lParam = none := by
  intro fuel
  induction fuel with
  | zero => rfl
  | succ n ih =>
    simp only [SubclassProc, hm, false_and, if_false, ho, CallWindowProc, ih, Option.map_none']

/-- What `hookWindow` does when given a buffer, a number and a function. -/
theorem HookWindow_typed (h : HWND) (signalId : Int) (cb : Nat) (rest : List Value)
    (g : Globals) (d : Desktop) :
    HookWindow (Value.buffer h :: Value.number signalId :: Value.function cb :: rest) g d =
      (Completion.returned (Value.boolean true),
       { g_hwnd := h, g_customMsg := (signalId % 2 ^ 32).toNat, g_callback := some cb,
         g_originalProc := (SetWindowLongPtrW d h WNDPROC.SubclassProc).1 },
       (SetWindowLongPtrW d h WNDPROC.SubclassProc).2) := by
  have hl : ¬ (Value.buffer h :: Value.number signalId :: Value.function cb :: rest).length < 3 := by
    simp only [List.length_cons]; omega
  simp only [HookWindow, hl, if_false, List.getD_cons_zero, List.getD_cons_succ,
    Value.bufferHWND, Value.Uint32Value, ThreadSafeFunction_New]

/-- On a live window whose entry point is an application handler `p` (a
window that does not carry the shim yet), `hookWindow(window, signalId,
callback)` installs the shim and saves `p`; a message with the registered
identifier then queues the callback exactly once, does not call `p`, and
returns 0; a message with any other identifier queues nothing, calls `p`
exactly once with the same `(hwnd, msg, wParam, lParam)`, and returns what
`p` returned. -/
theorem hook_then_deliver (g g1 : Globals) (d d1 : Desktop) (v : Completion) (h : HWND)
    (signalId : Int) (cb p : Nat) (rest : List Value)
    (hw : d.wndproc h = some (WNDPROC.addr p))
    (hH : HookWindow (Value.buffer h :: Value.number signalId :: Value.function cb :: rest) g d
        = (v, g1, d1)) :
    v = Completion.returned (Value.boolean true)
    ∧ d1.wndproc h = some WNDPROC.SubclassProc
    ∧ g1 = { g_hwnd := h, g_customMsg := (signalId % 2 ^ 32).toNat, g_callback := some cb,
             g_originalProc := WNDPROC.addr p }
    ∧ (∀ fuel hwnd wParam lParam,
        SubclassProc d1 g1 (fuel + 1) hwnd (signalId % 2 ^ 32).toNat wParam lParam
          = some (0, [Event.BlockingCall cb]))
    ∧ (∀ fuel hwnd msg wParam lParam, msg ≠ (signalId % 2 ^ 32).toNat →
        SubclassProc d1 g1 (fuel + 1) hwnd msg wParam lParam
          = some (d.appProc p hwnd msg wParam lParam,
                  [Event.CallWindowProc (WNDPROC.addr p) hwnd msg wParam lParam])) := by
  rw [HookWindow_typed] at hH
  simp only [SetWindowLongPtrW, hw, Prod.mk.injEq] at hH
  obtain ⟨hv, hg, hd⟩ := hH
  subst hv hg hd
  refine ⟨rfl, by simp, rfl, ?_, ?_⟩
  · intro fuel hwnd wParam lParam
    simp [SubclassProc]
  · intro fuel hwnd msg wParam lParam hne
    have hc : ¬ (msg = (signalId % 2 ^ 32).toNat ∧ (some cb).isSome = true) :=
      fun hh => hne hh.1
    simp only [SubclassProc, CallWindowProc, if_neg hc]

/-- C6: `hookWindow` on a window that already carries the shim (window 9 of
the sample desktop, hooked with signal 1024 and hooked again with signal
2048) returns `true`; the registered signal 2048 still queues its callback
once and returns 0, but a message with any other identifier is not passed
to the window's handler at address 5000: the saved entry point is the shim
itself and the shim does not return, whatever the bound on nested calls. -/
theorem hook_on_hooked_window_never_forwards :
    rehookedSample.1 = Completion.returned (Value.boolean true)
    ∧ rehookedSample.2.1
        = { g_hwnd := 9, g_customMsg := 2048, g_callback := some 2,
            g_originalProc := WNDPROC.SubclassProc }
    ∧ SubclassProc rehookedSample.2.2 rehookedSample.2.1 1 9 2048 3 4
        = some (0, [Event.BlockingCall 2])
    ∧ ∀ (fuel : Nat) (hwnd : HWND) (msg wParam lParam : Nat), msg ≠ 2048 →
        SubclassProc rehookedSample.2.2 rehookedSample.2.1 fuel hwnd msg wParam lParam
          = none := by
  refine ⟨by decide, by decide, by decide, ?_⟩
  intro fuel hwnd msg wParam lParam hne
  have hg : rehookedSample.2.1.g_customMsg = 2048 := by decide
  exact SubclassProc_reenters _ _ hwnd msg wParam lParam (by decide) (by rw [hg]; exact hne) fuel

/-- C9, as stated, fails: on a desktop where `SetForegroundWindow` returns
the non-zero value 2, `setForegroundWindow` returns `false`. -/
theorem setForegroundWindow_nonzero_gives_false :
    (sampleDesktop 2).SetForegroundWindow 9 ≠ 0
    ∧ SetForegroundWindowWrapped [Value.number 9] (sampleDesktop 2)
        = (Completion.returned (Value.boolean false), [9]) := by
  decide

/-- C9, amended: `setForegroundWindow` returns `true` exactly when its first
argument is a number and the underlying `SetForegroundWindow` call returns
`TRUE`, that is 1; given a number it makes that call once, on the number
reduced to 32 bits, and returns `false` for every other return value; with
no argument it returns `false` without calling the window manager (and with
a first argument that is not a number it throws without calling it). -/
theorem setForegroundWindow_result (info : List Value) (d : Desktop) :
    ((SetForegroundWindowWrapped info d).1 = Completion.returned (Value.boolean true) ↔
        ∃ n rest, info = Value.number n :: rest
          ∧ d.SetForegroundWindow (n % 2 ^ 32).toNat = 1)
    ∧ (info = [] →
        SetForegroundWindowWrapped info d = (Completion.returned (Value.boolean false), []))
    ∧ (∀ n rest, info = Value.number n :: rest →
        SetForegroundWindowWrapped info d =
          (Completion.returned
              (Value.boolean (decide (d.SetForegroundWindow (n % 2 ^ 32).toNat = 1))),
           [(n % 2 ^ 32).toNat]))
    ∧ ((∀ n rest, info ≠ Value.number n :: rest) →
        (SetForegroundWindowWrapped info d).2 = []) := by
  have hnum : ∀ n rest, SetForegroundWindowWrapped (Value.number n :: rest) d =
      (Completion.returned
          (Value.boolean (decide (d.SetForegroundWindow (n % 2 ^ 32).toNat = 1))),
       [(n % 2 ^ 32).toNat]) := by
    intro n rest
    have hl : ¬ (Value.number n :: rest).length < 1 := by simp
    simp only [SetForegroundWindowWrapped, hl, if_false, List.getD_cons_zero,
      Value.Uint32Value, TRUE]
    congr 3
  refine ⟨?_, ?_, ?_, ?_⟩
  · constructor
    · intro ht
      match info with
      | [] => simp [SetForegroundWindowWrapped] at ht
      | Value.number n :: rest =>
        rw [hnum] at ht
        refine ⟨n, rest, rfl, ?_⟩
        simpa using ht
      | Value.null :: rest => simp [SetForegroundWindowWrapped, Value.Uint32Value] at ht
      | Value.boolean b :: rest => simp [SetForegroundWindowWrapped, Value.Uint32Value] at ht
      | Value.buffer b :: rest => simp [SetForegroundWindowWrapped, Value.Uint32Value] at ht
      | Value.function b :: rest => simp [SetForegroundWindowWrapped, Value.Uint32Value] at ht
    · rintro ⟨n, rest, rfl, hr⟩
      rw [hnum, decide_eq_true hr]
  · rintro rfl
    rfl
  · rintro n rest rfl
    exact hnum n rest
  · intro hno
    match info with
    | [] => rfl
    | Value.number n :: rest => exact absurd rfl (hno n rest)
    | Value.null :: rest => simp [SetForegroundWindowWrapped, Value.Uint32Value]
    | Value.boolean b :: rest => simp [SetForegroundWindowWrapped, Value.Uint32Value]
    | Value.buffer b :: rest => simp [SetForegroundWindowWrapped, Value.Uint32Value]
    | Value.function b :: rest => simp [SetForegroundWindowWrapped, Value.Uint32Value]

/-- C10: two `hookWindow` calls on the same live window (window 9 of the sample
desktop) leave the shim itself in `g_originalProc`, and a message other than
the signal then never returns from the shim: whatever the bound on nested
calls, the bound is reached. -/
theorem hookWindow_twice_saves_shim :
    (HookWindow [Value.buffer 9, Value.number 1024, Value.function 1]
        (HookWindow [Value.buffer 9, Value.number 1024, Value.function 1] Globals.init
          (sampleDesktop 1)).2.1
        (HookWindow [Value.buffer 9, Value.number 1024, Value.function 1] Globals.init
          (sampleDesktop 1)).2.2).2.1.g_originalProc = WNDPROC.SubclassProc
    ∧ ∀ fuel : Nat,
        SubclassProc
          (HookWindow [Value.buffer 9, Value.number 1024, Value.function 1]
            (HookWindow [Value.buffer 9, Value.number 1024, Value.function 1] Globals.init
              (sampleDesktop 1)).2.1
            (HookWindow [Value.buffer 9, Value.number 1024, Value.function 1] Globals.init
              (sampleDesktop 1)).2.2).2.2
          (HookWindow [Value.buffer 9, Value.number 1024, Value.function 1]
            (HookWindow [Value.buffer 9, Value.number 1024, Value.function 1] Globals.init
              (sampleDesktop 1)).2.1
            (HookWindow [Value.buffer 9, Value.number 1024, Value.function 1] Globals.init
              (sampleDesktop 1)).2.2).2.1
          fuel 9 7 0 0 = none := by
  refine ⟨by decide, fun fuel => ?_⟩
  exact SubclassProc_reenters _ _ 9 7 0 0 (by decide) (by decide) fuel

end ClipMsg
